import Mathlib

/-!
Verification of the order-management service in `app.py`: a shallow
embedding of its validator (`sanitize_string`, `validate_number`,
`validate_order_data`), its SQLite-backed store, and its three HTTP
handlers (`get_orders`, `get_order`, `create_order`), with theorems
settling the specified properties.
-/

namespace OrderApp

/-- Model of the Python floating-point values that arise in this service:
either a finite value, modelled exactly as a rational, or the IEEE NaN
produced e.g. by `float("nan")`.  Infinities cannot arise from the JSON
bodies exercised here and are not modelled. -/
inductive PyNum where
  | finite (q : ℚ)
  | nan
  deriving DecidableEq, Repr

/-- Python `<` on floats: any comparison involving NaN is false. -/
def PyNum.ltB : PyNum → PyNum → Bool
  | .finite a, .finite b => decide (a < b)
  | _, _ => false

/-- Round a rational to the nearest integer, ties to even (the rounding
mode of Python `round`). -/
def roundHalfEven (x : ℚ) : ℤ :=
  let f : ℤ := ⌊x⌋
  let r : ℚ := x - f
  if r < 1 / 2 then f
  else if 1 / 2 < r then f + 1
  else if f % 2 = 0 then f else f + 1

/-- Model of Python `round(x, 2)` on a finite value, as exact decimal
rounding of the rational (the source operates on binary doubles, whose
representation error is not modelled). -/
def roundQ2 (q : ℚ) : ℚ := (roundHalfEven (q * 100) : ℚ) / 100

/-- Python `round(value, 2)` including the NaN case (`round(nan, 2)` is NaN). -/
def PyNum.round2 : PyNum → PyNum
  | .finite q => .finite (roundQ2 q)
  | .nan => .nan

/-- A parsed JSON / Python value as it reaches the validator.  `vNone`
stands for Python `None` (e.g. `request.get_json()` returning nothing). -/
inductive Value where
  | vNone
  | vBool (b : Bool)
  | vInt (n : ℤ)
  | vFloat (p : PyNum)
  | vStr (s : String)
  | vList (elems : List Value)
  | vDict (entries : List (String × Value))

/-- The ASCII whitespace characters recognised by Python `str.strip` and by
`\s` in its regular expressions (Python also handles some further Unicode
whitespace, which no input in this development contains). -/
def isPySpace (c : Char) : Bool :=
  c = ' ' || c = '\t' || c = '\n' || c = '\r' || c = '\x0b' || c = '\x0c'

/-- Strip leading and trailing whitespace from a character list. -/
def stripChars (cs : List Char) : List Char :=
  ((cs.dropWhile isPySpace).reverse.dropWhile isPySpace).reverse

/-- Model of Python `str.strip()`. -/
def pyStrip (s : String) : String := ⟨stripChars s.data⟩

/-- The character class `[a-zA-Z0-9\s\.]` of the customer-name rule in
`VALIDATION_RULES` (for `\s` see `isPySpace`). -/
def customerChar (c : Char) : Bool :=
  c.isAlpha || c.isDigit || isPySpace c || c = '.'

/-- The character class `[a-zA-Z0-9\s\x27"]` of the item-name rule. -/
def itemChar (c : Char) : Bool :=
  c.isAlpha || c.isDigit || isPySpace c || c = '\'' || c = '"'

/-- The two string-valued fields of `VALIDATION_RULES`. -/
inductive StrField where
  | customer_name
  | item_name
  deriving DecidableEq, Repr

/-- The Python-side key of a string field. -/
def StrField.fieldName : StrField → String
  | .customer_name => "customer_name"
  | .item_name => "item_name"

/-- The `max_length` entry of the field rules. -/
def StrField.maxLength : StrField → ℕ
  | .customer_name => 100
  | .item_name => 200

/-- The character class of the field regex. -/
def StrField.charOk : StrField → Char → Bool
  | .customer_name => customerChar
  | .item_name => itemChar

/-- The `error_msg` entry of the field rules. -/
def StrField.errorMsg : StrField → String
  | .customer_name => "Customer name can only have letters, numbers, spaces and periods"
  | .item_name => "Item name can only have letters, numbers, spaces, and quotes"

/-- Full-string match of the field regex `[...]+` (anchored on both sides):
nonempty and every character in the class. -/
def matchesClass (f : StrField) (s : String) : Bool :=
  !s.data.isEmpty && s.data.all f.charOk

/-- Model of `sanitize_string` from `app.py`: type check, trim, emptiness, length and
pattern checks on a string field.  Mirrors the source, including that the
trimmed value is returned alongside any length or pattern errors, and that
the length and pattern checks both run (their errors can co-occur). -/
def sanitize_string (value : Value) (f : StrField) : Option String × List String :=
  match value with
  | .vStr s =>
    let v := pyStrip s
    if v = "" then (none, [f.fieldName ++ " cannot be empty"])
    else
      let lenErrs :=
        if f.maxLength < v.length then
          [f.fieldName ++ " cannot exceed " ++ toString f.maxLength ++ " characters"]
        else []
      let patErrs := if matchesClass f v then [] else [f.errorMsg]
      (some v, lenErrs ++ patErrs)
  | _ => (none, [f.fieldName ++ " should be a string"])

/-- Numeric value of an ASCII digit string. -/
def digitsVal (cs : List Char) : ℕ :=
  cs.foldl (fun n c => 10 * n + (c.toNat - 48)) 0

/-- Nonempty and all ASCII digits. -/
def allDigits (cs : List Char) : Bool := !cs.isEmpty && cs.all Char.isDigit

/-- Truncation toward zero, the behaviour of Python `int()` on a float. -/
def ratTrunc (q : ℚ) : ℤ := if 0 ≤ q then ⌊q⌋ else -⌊-q⌋

/-- Model of Python `int(s)` on a string: optional sign around a digit
string, surrounding whitespace allowed (underscores between digits are not
modelled). -/
def pyIntOfString (s : String) : Option ℤ :=
  match stripChars s.data with
  | '-' :: ds => if allDigits ds then some (-(digitsVal ds : ℤ)) else none
  | '+' :: ds => if allDigits ds then some (digitsVal ds : ℤ) else none
  | ds => if allDigits ds then some (digitsVal ds : ℤ) else none

/-- Model of Python `float(s)` on a string, restricted to the shapes used in
this development: optional sign, then `nan` (any letter case) or a decimal
literal `digits`, `digits.digits`, `digits.` or `.digits`.  Exponents,
underscores and infinities are not modelled; on those this model is more
restrictive than Python. -/
def pyFloatOfString (s : String) : Option PyNum :=
  let core := fun (u : List Char) (neg : Bool) =>
    if u.map Char.toLower = ['n', 'a', 'n'] then some PyNum.nan
    else
      let ip := u.takeWhile Char.isDigit
      let rest := u.dropWhile Char.isDigit
      match rest with
      | [] =>
        if ip.isEmpty then none
        else some (.finite ((if neg then -1 else 1) * (digitsVal ip : ℚ)))
      | '.' :: fp =>
        if fp.all Char.isDigit ∧ (ip ≠ [] ∨ fp ≠ []) then
          some (.finite ((if neg then -1 else 1) *
            ((digitsVal ip : ℚ) + (digitsVal fp : ℚ) / (10 : ℚ) ^ fp.length)))
        else none
      | _ => none
  match stripChars s.data with
  | '-' :: u => core u true
  | '+' :: u => core u false
  | u => core u false

/-- Model of Python `int(value)` as used for `quantity`; `none` models an
exception caught by the source (`ValueError`, `TypeError`). -/
def pyInt : Value → Option ℤ
  | .vInt n => some n
  | .vBool b => some (if b then 1 else 0)
  | .vFloat (.finite q) => some (ratTrunc q)
  | .vFloat .nan => none
  | .vStr s => pyIntOfString s
  | _ => none

/-- Model of Python `float(value)` as used for `total_price`. -/
def pyFloat : Value → Option PyNum
  | .vInt n => some (.finite (n : ℚ))
  | .vBool b => some (.finite (if b then 1 else 0))
  | .vFloat p => some p
  | .vStr s => pyFloatOfString s
  | _ => none

/-- The `quantity` branch of `validate_number` in `app.py`. -/
def validate_quantity (value : Value) : Option ℤ × List String :=
  match pyInt value with
  | none => (none, ["Invalid quantity format"])
  | some num =>
    if num < 1 ∨ 1000 < num then (none, ["Quantity must be between 1 and 1000"])
    else (some num, [])

/-- The `total_price` branch of `validate_number` in `app.py`: convert with
`float`, round to two decimals, then range-check with Python float
comparisons, under which NaN compares below nothing and above nothing. -/
def validate_total_price (value : Value) : Option PyNum × List String :=
  match pyFloat value with
  | none => (none, ["Invalid total_price format"])
  | some x =>
    let num := x.round2
    if num.ltB (.finite (1 / 100)) || PyNum.ltB (.finite 1000000) num then
      (none, ["Total price must be between 0.01 and 1,000,000.00"])
    else (some num, [])

/-- Membership of a key in the parsed JSON object (`field not in data`). -/
def hasKey (kvs : List (String × Value)) (k : String) : Bool :=
  kvs.any (fun p => p.1 == k)

/-- Lookup `data.get(field)` on the parsed JSON object. -/
def dictGet (kvs : List (String × Value)) (k : String) : Value :=
  match kvs.find? (fun p => p.1 == k) with
  | some p => p.2
  | none => .vNone

/-- The `validated_data` record produced by a fully successful
`validate_order_data` run. -/
structure OrderData where
  customer_name : String
  item_name : String
  quantity : ℤ
  total_price : PyNum
  deriving DecidableEq, Repr

/-- The `required_fields` list of `validate_order_data`. -/
def requiredFields : List String := ["customer_name", "item_name", "quantity", "total_price"]

/-- Model of `validate_order_data` from `app.py`: type check on the body, missing-field
check, then the four per-field checks with all errors concatenated in field
order.  The last fallback branch models the (unreachable) case of no errors
with some field value absent. -/
def validate_order_data (data : Value) : Option OrderData × List String :=
  match data with
  | .vDict kvs =>
    let missing := requiredFields.filter (fun f => !hasKey kvs f)
    if missing ≠ [] then
      (none, ["Missing required fields: " ++ String.intercalate ", " missing])
    else
      let rc := sanitize_string (dictGet kvs "customer_name") .customer_name
      let ri := sanitize_string (dictGet kvs "item_name") .item_name
      let rq := validate_quantity (dictGet kvs "quantity")
      let rp := validate_total_price (dictGet kvs "total_price")
      let errors := rc.2 ++ ri.2 ++ rq.2 ++ rp.2
      if errors ≠ [] then (none, errors)
      else
        match rc.1, ri.1, rq.1, rp.1 with
        | some c, some i, some q, some p => (some ⟨c, i, q, p⟩, [])
        | _, _, _, _ => (none, [])
  | _ => (none, ["Invalid request format. Expected JSON object"])

/-- Python truthiness of a parsed JSON value (the `if not data:` test). -/
def pyTruthy : Value → Bool
  | .vNone => false
  | .vBool b => b
  | .vInt n => !decide (n = 0)
  | .vFloat p => !decide (p = .finite 0)
  | .vStr s => !decide (s = "")
  | .vList l => !l.isEmpty
  | .vDict l => !l.isEmpty

/-- A row of the `orders` table. -/
structure Order where
  id : ℕ
  customer_name : String
  item_name : String
  quantity : ℤ
  total_price : PyNum
  created_at : ℕ
  deriving DecidableEq, Repr

/-- The `orders` table: rows in insertion (rowid) order, together with the
next id the `AUTOINCREMENT` column will assign. -/
structure Store where
  rows : List Order
  nextId : ℕ
  deriving DecidableEq, Repr

/-- The five seed rows inserted by `init_database` on first run (ids 1-5,
all carrying the same insert timestamp, here 0). -/
def initStore : Store :=
  { rows :=
      [ ⟨1, "Kamrul Islam", "MSI Gaming Laptop", 1, .finite (1299.99 : ℚ), 0⟩
      , ⟨2, "Alif", "Ajazz Ak870 Pro Keybaord", 2, .finite (49.98 : ℚ), 0⟩
      , ⟨3, "Fatema Tuz Johra", "Dareu Ak950Pro Gaming Mouse", 1, .finite (59.99 : ℚ), 0⟩
      , ⟨4, "Riha", "Walton Monitor 27 inche", 2, .finite (599.98 : ℚ), 0⟩
      , ⟨5, "Mehedi HasaN", "USB-C Cable", 3, .finite (29.97 : ℚ), 0⟩ ]
  , nextId := 6 }

/-- SQLite parameter binding of the total_price float: a NaN double is
bound as SQL NULL; a finite value is bound as that REAL value.  The other
three bound parameters (two strings and an integer) can never be NULL
here. -/
def bindTotalPrice : PyNum → Option ℚ
  | .finite q => some q
  | .nan => none

/-- The `INSERT` performed by `create_order`: the store assigns the id and
the timestamp; `cursor.lastrowid` is the assigned id.  When the bound
total_price is NULL (a NaN float), the REAL NOT NULL constraint on
`orders.total_price` fails, `cursor.execute` raises
`sqlite3.IntegrityError`, and nothing is inserted: that outcome is `none`. -/
def insertOrder (s : Store) (d : OrderData) (now : ℕ) : Option (ℕ × Store) :=
  if bindTotalPrice d.total_price = none then none
  else
    some (s.nextId,
      { rows :=
          s.rows ++ [⟨s.nextId, d.customer_name, d.item_name, d.quantity, d.total_price, now⟩]
      , nextId := s.nextId + 1 })

/-- A JSON response body produced by the handlers.  Each constructor carries
exactly the keys the source puts in that body. -/
inductive RespBody where
  | jsonError (msg : String)
  | jsonErrors (msgs : List String)
  | jsonOrder (o : Order)
  | jsonOrders (os : List Order)
  | jsonCreated (msg : String) (order_id : ℕ)
  deriving DecidableEq, Repr

/-- An HTTP response: status code and JSON body. -/
structure HttpResponse where
  status : ℕ
  body : RespBody
  deriving DecidableEq, Repr

/-- A Python exception escaping a handler. -/
inductive PyExn where
  | unboundLocalError
  deriving DecidableEq, Repr

/-- Outcome of running a handler: a returned response, or an exception that
escapes the handler (which Flask then maps to a generic 500 page). -/
inductive Outcome where
  | ok (r : HttpResponse)
  | exn (e : PyExn)
  deriving DecidableEq, Repr

/-- The status code the HTTP client actually sees. -/
def clientStatus : Outcome → ℕ
  | .ok r => r.status
  | .exn _ => 500

/-- Result of the `try`/`except` part of a handler, together with whether
the local `conn` was assigned on that path. -/
structure TryOut where
  resp : HttpResponse
  connBound : Bool
  deriving DecidableEq, Repr

/-- The `finally: conn.close()` of `get_orders` and `get_order`: those
handlers never initialise `conn` before the `try`, so on a path where
`conn` was never assigned, `conn.close()` itself raises
`UnboundLocalError`, discarding the response computed in the `try` block. -/
def applyFinally (t : TryOut) : Outcome :=
  if t.connBound then .ok t.resp else .exn .unboundLocalError

/-- Per-character model of Python `str.isdigit`, which accepts not only the
ASCII digits but further Unicode digit characters; of those, the
superscript digits and the Arabic-Indic digits (the ones exercised here)
are modelled.  Unmodelled characters are classified as non-digits. -/
def pyDigitChar (c : Char) : Bool :=
  c.isDigit || c = '¹' || c = '²' || c = '³' || (0x660 ≤ c.toNat && c.toNat ≤ 0x669)

/-- Model of Python `str.isdigit`: nonempty and all characters digits. -/
def pyIsdigit (s : String) : Bool :=
  !s.data.isEmpty && s.data.all pyDigitChar

/-- SQLite numeric affinity applied to the TEXT parameter compared against
the INTEGER `id` column: an ASCII digit string converts to its numeric
value (leading zeros allowed); other text stays TEXT and never equals an
INTEGER, so the comparison matches no row. -/
def sqliteTextAffinity (s : String) : Option ℕ :=
  if allDigits s.data then some (digitsVal s.data) else none

/-- The `SELECT * FROM orders WHERE id = ?` lookup of `get_order`. -/
def lookupById (s : Store) (raw : String) : Option Order :=
  match sqliteTextAffinity raw with
  | some n => s.rows.find? (fun o => o.id == n)
  | none => none

/-- The `try` block of the `get_order` handler (`connOk` models whether
`sqlite3.connect` succeeds), recording whether `conn` was assigned. -/
def get_order_try (order_id : String) (connOk : Bool) (s : Store) : TryOut :=
  if !pyIsdigit order_id then
    { resp := ⟨400, .jsonError "Invalid order ID format"⟩, connBound := false }
  else if !connOk then
    { resp := ⟨500, .jsonError "Failed to fetch details"⟩, connBound := false }
  else
    match lookupById s order_id with
    | none => { resp := ⟨404, .jsonError "Order not found"⟩, connBound := true }
    | some o => { resp := ⟨200, .jsonOrder o⟩, connBound := true }

/-- The full `get_order` handler, `finally` block included. -/
def get_order (order_id : String) (connOk : Bool) (s : Store) : Outcome :=
  applyFinally (get_order_try order_id connOk s)

/-- Descending `created_at` comparison, the sort key of
`ORDER BY created_at DESC`. -/
def createdDesc (a b : Order) : Prop := b.created_at ≤ a.created_at

instance : DecidableRel createdDesc := fun a b =>
  inferInstanceAs (Decidable (b.created_at ≤ a.created_at))

/-- What `SELECT * FROM orders ORDER BY created_at DESC` guarantees about
its result: a permutation of the rows, sorted by `created_at` descending.
The query names no tiebreaker column, so SQL fixes no order among rows with
equal `created_at`. -/
def ordersQuery (s : Store) (out : List Order) : Prop :=
  out.Perm s.rows ∧ out.Sorted createdDesc

/-- The `create_order` handler (POST /orders).  `data` is the value
`request.get_json()` produced (`vNone` when it returned `None`); `connOk`
models whether `sqlite3.connect` succeeds.  A failing connect and a failing
INSERT (see `insertOrder`) both raise a `sqlite3.Error`, which the handler
answers with the same 500 body, leaving the store unchanged (the raising
`execute` commits nothing).  This handler initialises `conn = None` before
its `try` and closes it only if set, so its `finally` never raises. -/
def create_order (data : Value) (connOk : Bool) (s : Store) (now : ℕ) : Outcome × Store :=
  if !pyTruthy data then (.ok ⟨400, .jsonError "No provided data"⟩, s)
  else
    match validate_order_data data with
    | (_, e :: es) => (.ok ⟨400, .jsonErrors (e :: es)⟩, s)
    | (some d, []) =>
      if !connOk then (.ok ⟨500, .jsonError "Database error occurred"⟩, s)
      else
        match insertOrder s d now with
        | none => (.ok ⟨500, .jsonError "Database error occurred"⟩, s)
        | some r => (.ok ⟨201, .jsonCreated "Order successfully created" r.1⟩, r.2)
    | (none, []) => (.ok ⟨500, .jsonError "Failed to create the order"⟩, s)

/-- A stored row passes the Validator's field checks: re-running the
source's per-field checks on the stored values produces no errors. -/
def passesChecks (o : Order) : Bool :=
  decide ((sanitize_string (.vStr o.customer_name) .customer_name).2 = []) &&
  decide ((sanitize_string (.vStr o.item_name) .item_name).2 = []) &&
  decide ((validate_quantity (.vInt o.quantity)).2 = []) &&
  decide ((validate_total_price (.vFloat o.total_price)).2 = [])

/-- Store states reachable by the service: the bootstrapped store, then any
sequence of POST /orders calls. -/
inductive Reachable : Store → Prop where
  | init : Reachable initStore
  | create (s : Store) (data : Value) (connOk : Bool) (now : ℕ) :
      Reachable s → Reachable (create_order data connOk s now).2

/-- ASCII digit character for a digit value. -/
def digitChar (d : ℕ) : Char := Char.ofNat (48 + d)

/-- Decimal digit expansion of a positive natural, most significant first. -/
def natDigits : ℕ → List Char
  | 0 => []
  | n + 1 => natDigits ((n + 1) / 10) ++ [digitChar ((n + 1) % 10)]
decreasing_by exact Nat.div_lt_self (Nat.succ_pos n) (by decide)

/-- Decimal rendering of an id, as Python `str` / JSON serialise it. -/
def natToDec (n : ℕ) : String := if n = 0 then "0" else ⟨natDigits n⟩

/-- Whether a response body carries the single-message `error` key. -/
def hasErrorKey : RespBody → Bool
  | .jsonError _ => true
  | _ => false

/-- Whether a response body carries the `errors` list key. -/
def hasErrorsKey : RespBody → Bool
  | .jsonErrors _ => true
  | _ => false

instance : IsTotal Order createdDesc :=
  ⟨fun a b => (Nat.le_total b.created_at a.created_at).symm.symm⟩

instance : IsTrans Order createdDesc :=
  ⟨fun _ _ _ hab hbc => Nat.le_trans hbc hab⟩

/-- Strict version of `createdDesc`, used to pin the query result down
uniquely when all timestamps are distinct. -/
def createdDescStrict (a b : Order) : Prop := b.created_at < a.created_at ∨ a = b

instance : IsAntisymm Order createdDescStrict := by
  refine ⟨fun a b hab hba => ?_⟩
  rcases hab with h1 | h1
  · rcases hba with h2 | h2
    · exact absurd h2 (Nat.lt_asymm h1)
    · exact h2.symm
  · exact h1

/-- A row used to exhibit the behaviour of the list query on equal
timestamps: three copies differing only in `id`, all `created_at = 5`. -/
def tieRow (i : ℕ) : Order := ⟨i, "Ann", "Widget", 1, .finite 10, 5⟩

/-- Unfolding the string wrapper: the data of a built string is its list. -/
theorem string_data_mk (l : List Char) : (⟨l⟩ : String).data = l := rfl

/-- Restatement of `stripChars` with the library primitives. -/
theorem stripChars_eq (cs : List Char) :
    stripChars cs = List.rdropWhile isPySpace (cs.dropWhile isPySpace) := rfl

/-- Stripping is idempotent. -/
theorem stripChars_idem (cs : List Char) : stripChars (stripChars cs) = stripChars cs := by
  rw [stripChars_eq, stripChars_eq]
  have h1 : List.dropWhile isPySpace (List.rdropWhile isPySpace (cs.dropWhile isPySpace)) =
      List.rdropWhile isPySpace (cs.dropWhile isPySpace) := by
    rw [List.dropWhile_eq_self_iff]
    intro hl
    have hpre := List.rdropWhile_prefix isPySpace (cs.dropWhile isPySpace)
    have hne : List.rdropWhile isPySpace (cs.dropWhile isPySpace) ≠ [] :=
      List.ne_nil_of_length_pos hl
    intro hcon
    rw [List.get_eq_getElem] at hcon
    have hlen₂ : 0 < (cs.dropWhile isPySpace).length := Nat.lt_of_lt_of_le hl hpre.length_le
    have hge := hpre.getElem (n := 0) hl
    rw [hge] at hcon
    have hd := List.dropWhile_get_zero_not isPySpace cs hlen₂
    rw [List.get_eq_getElem] at hd
    exact hd hcon
  rw [h1, List.rdropWhile_idempotent]

/-- Idempotence of `pyStrip`, matching Python `strip`. -/
theorem pyStrip_idem (s : String) : pyStrip (pyStrip s) = pyStrip s := by
  show (⟨stripChars (stripChars s.data)⟩ : String) = ⟨stripChars s.data⟩
  rw [stripChars_idem]

/-- Rounding a value that is already an integer number of cents changes
nothing. -/
theorem roundQ2_intCast_div (k : ℤ) : roundQ2 ((k : ℚ) / 100) = (k : ℚ) / 100 := by
  unfold roundQ2 roundHalfEven
  have h : ((k : ℚ) / 100) * 100 = (k : ℚ) := by
    rw [div_mul_cancel₀]
    norm_num
  rw [h]
  have hf : ⌊(k : ℚ)⌋ = k := Int.floor_intCast k
  simp only [hf]
  norm_num

/-- Idempotence of `roundQ2`. -/
theorem roundQ2_idem (q : ℚ) : roundQ2 (roundQ2 q) = roundQ2 q := by
  have h : roundQ2 q = ((roundHalfEven (q * 100) : ℤ) : ℚ) / 100 := rfl
  rw [h, roundQ2_intCast_div]

/-- Idempotence of `round2` on Python numbers (NaN rounds to NaN). -/
theorem round2_idem (p : PyNum) : p.round2.round2 = p.round2 := by
  cases p with
  | nan => rfl
  | finite q =>
    show PyNum.finite (roundQ2 (roundQ2 q)) = PyNum.finite (roundQ2 q)
    rw [roundQ2_idem]

/-- A quantity the validator accepted passes the validator again. -/
theorem validate_quantity_recheck (v : Value) (q : ℤ)
    (h : validate_quantity v = (some q, [])) :
    validate_quantity (.vInt q) = (some q, []) := by
  unfold validate_quantity at h ⊢
  cases hf : pyInt v with
  | none => rw [hf] at h; exact absurd h (by simp)
  | some n =>
    rw [hf] at h
    simp only at h
    by_cases hc : n < 1 ∨ 1000 < n
    · rw [if_pos hc] at h
      exact absurd h (by simp)
    · rw [if_neg hc] at h
      have hq : n = q := by
        have := congrArg Prod.fst h
        simpa using this
      subst hq
      simp only [pyInt]
      rw [if_neg hc]

/-- A total price the validator accepted passes the validator again. -/
theorem validate_total_price_recheck (v : Value) (p : PyNum)
    (h : validate_total_price v = (some p, [])) :
    validate_total_price (.vFloat p) = (some p, []) := by
  unfold validate_total_price at h ⊢
  cases hf : pyFloat v with
  | none => rw [hf] at h; exact absurd h (by simp)
  | some x =>
    rw [hf] at h
    simp only at h
    by_cases hc : (PyNum.ltB x.round2 (.finite (1 / 100)) || PyNum.ltB (.finite 1000000) x.round2) = true
    · rw [if_pos hc] at h
      exact absurd h (by simp)
    · rw [if_neg hc] at h
      have hp : x.round2 = p := by
        have := congrArg Prod.fst h
        simpa using this
      subst hp
      simp only [pyFloat]
      simp only [round2_idem]
      rw [if_neg hc]

/-- A string field value the validator accepted passes the validator
again: the recorded value is already stripped, nonempty, within the length
bound and inside the character class. -/
theorem sanitize_string_recheck (f : StrField) (v0 : Value) (v : String)
    (h : sanitize_string v0 f = (some v, [])) :
    sanitize_string (.vStr v) f = (some v, []) := by
  cases v0 with
  | vStr s =>
    unfold sanitize_string at h
    simp only at h
    by_cases he : pyStrip s = ""
    · rw [if_pos he] at h
      exact absurd h (by simp)
    · rw [if_neg he] at h
      have hv : pyStrip s = v := by
        have := congrArg Prod.fst h
        simpa using this
      have herr := congrArg Prod.snd h
      simp only at herr
      rw [List.append_eq_nil] at herr
      have hlen : ¬ f.maxLength < (pyStrip s).length := by
        intro hcon
        rw [if_pos hcon] at herr
        exact List.cons_ne_nil _ _ herr.1
      have hpat : matchesClass f (pyStrip s) = true := by
        by_contra hcon
        rw [if_neg hcon] at herr
        exact List.cons_ne_nil _ _ herr.2
      subst hv
      unfold sanitize_string
      simp only
      rw [if_neg (by rw [pyStrip_idem]; exact he)]
      rw [pyStrip_idem]
      rw [if_neg hlen, if_pos hpat]
      simp
  | vNone => exact absurd h (by simp [sanitize_string])
  | vBool b => exact absurd h (by simp [sanitize_string])
  | vInt n => exact absurd h (by simp [sanitize_string])
  | vFloat p => exact absurd h (by simp [sanitize_string])
  | vList l => exact absurd h (by simp [sanitize_string])
  | vDict l => exact absurd h (by simp [sanitize_string])

/-- A record produced by a fully successful validation run passes each of
the four per-field checks when re-run on the stored (normalized) values. -/
theorem validate_fields_recheck (data : Value) (d : OrderData)
    (h : validate_order_data data = (some d, [])) :
    sanitize_string (.vStr d.customer_name) .customer_name = (some d.customer_name, []) ∧
    sanitize_string (.vStr d.item_name) .item_name = (some d.item_name, []) ∧
    validate_quantity (.vInt d.quantity) = (some d.quantity, []) ∧
    validate_total_price (.vFloat d.total_price) = (some d.total_price, []) := by
  cases data with
  | vDict kvs =>
    unfold validate_order_data at h
    simp only at h
    by_cases hm : (requiredFields.filter fun f => !hasKey kvs f) = []
    · rw [if_neg (by simp [hm])] at h
      by_cases herr :
          (sanitize_string (dictGet kvs "customer_name") .customer_name).2 ++
            (sanitize_string (dictGet kvs "item_name") .item_name).2 ++
            (validate_quantity (dictGet kvs "quantity")).2 ++
            (validate_total_price (dictGet kvs "total_price")).2 = []
      · rw [if_neg (not_ne_iff.mpr herr)] at h
        simp only [List.append_eq_nil] at herr
        obtain ⟨⟨⟨h1, h2⟩, h3⟩, h4⟩ := herr
        rcases hc : (sanitize_string (dictGet kvs "customer_name") .customer_name).1 with _ | c
        · rw [hc] at h; simp at h
        · rcases hi2 : (sanitize_string (dictGet kvs "item_name") .item_name).1 with _ | i
          · rw [hc, hi2] at h; simp at h
          · rcases hq2 : (validate_quantity (dictGet kvs "quantity")).1 with _ | q
            · rw [hc, hi2, hq2] at h; simp at h
            · rcases hp2 : (validate_total_price (dictGet kvs "total_price")).1 with _ | p
              · rw [hc, hi2, hq2, hp2] at h; simp at h
              · rw [hc, hi2, hq2, hp2] at h
                simp only at h
                have hd : (⟨c, i, q, p⟩ : OrderData) = d := by
                  have := congrArg Prod.fst h
                  simpa using this
                subst hd
                refine ⟨?_, ?_, ?_, ?_⟩
                · exact sanitize_string_recheck _ _ _ (Prod.ext hc h1)
                · exact sanitize_string_recheck _ _ _ (Prod.ext hi2 h2)
                · exact validate_quantity_recheck _ _ (Prod.ext hq2 h3)
                · exact validate_total_price_recheck _ _ (Prod.ext hp2 h4)
      · rw [if_pos (by simpa using herr)] at h
        exact absurd (congrArg Prod.fst h) (by simp)
    · rw [if_pos (by simpa using hm)] at h
      exact absurd h (by simp)
  | vNone => exact absurd h (by simp [validate_order_data])
  | vBool b => exact absurd h (by simp [validate_order_data])
  | vInt n => exact absurd h (by simp [validate_order_data])
  | vFloat p => exact absurd h (by simp [validate_order_data])
  | vStr s => exact absurd h (by simp [validate_order_data])
  | vList l => exact absurd h (by simp [validate_order_data])

/-- Any row inserted through a successful validation passes the stored-row
field checks. -/
theorem passesChecks_of_validated (data : Value) (d : OrderData) (idv t : ℕ)
    (h : validate_order_data data = (some d, [])) :
    passesChecks ⟨idv, d.customer_name, d.item_name, d.quantity, d.total_price, t⟩ = true := by
  obtain ⟨h1, h2, h3, h4⟩ := validate_fields_recheck data d h
  unfold passesChecks
  simp only [h1, h2, h3, h4]
  simp

/-- A successful INSERT returns the assigned id and appends exactly the new
row. -/
theorem insertOrder_some (s : Store) (d : OrderData) (now : ℕ) (r : ℕ × Store)
    (h : insertOrder s d now = some r) :
    r = (s.nextId,
      ⟨s.rows ++ [⟨s.nextId, d.customer_name, d.item_name, d.quantity, d.total_price, now⟩],
        s.nextId + 1⟩) := by
  unfold insertOrder at h
  by_cases hb : bindTotalPrice d.total_price = none
  · rw [if_pos hb] at h
    exact absurd h (by simp)
  · rw [if_neg hb] at h
    injection h with h'
    exact h'.symm

/-- An INSERT of a record with a NaN total price always fails: the NaN is
bound as NULL and the NOT NULL constraint rejects the row. -/
theorem insertOrder_nan (s : Store) (d : OrderData) (now : ℕ)
    (h : d.total_price = .nan) : insertOrder s d now = none := by
  unfold insertOrder
  rw [if_pos (by rw [h]; rfl)]

/-- A finite total price whose rounded value is in range is accepted by the
price check and recorded rounded. -/
theorem validate_total_price_finite_ok (q : ℚ)
    (h1 : 1 / 100 ≤ roundQ2 q) (h2 : roundQ2 q ≤ 1000000) :
    validate_total_price (.vFloat (.finite q)) = (some (.finite (roundQ2 q)), []) := by
  have l1 : PyNum.ltB (.finite (roundQ2 q)) (.finite (1 / 100)) = false := by
    simp only [PyNum.ltB]
    exact decide_eq_false (not_lt.2 h1)
  have l2 : PyNum.ltB (.finite 1000000) (.finite (roundQ2 q)) = false := by
    simp only [PyNum.ltB]
    exact decide_eq_false (not_lt.2 h2)
  show (if (PyNum.ltB (PyNum.finite (roundQ2 q)) (PyNum.finite (1 / 100)) ||
        PyNum.ltB (PyNum.finite 1000000) (PyNum.finite (roundQ2 q))) = true
      then ((none : Option PyNum), ["Total price must be between 0.01 and 1,000,000.00"])
      else (some (PyNum.finite (roundQ2 q)), ([] : List String))) =
    (some (PyNum.finite (roundQ2 q)), ([] : List String))
  rw [l1, l2]
  simp

/-- An exact-cents price within range is accepted unchanged. -/
theorem price_check_cents (q : ℚ) (k : ℤ) (hk : q = (k : ℚ) / 100)
    (h1 : 1 / 100 ≤ q) (h2 : q ≤ 1000000) :
    validate_total_price (.vFloat (.finite q)) = (some (.finite q), []) := by
  have hr : roundQ2 q = q := by rw [hk, roundQ2_intCast_div]
  have h := validate_total_price_finite_ok q (by rw [hr]; exact h1) (by rw [hr]; exact h2)
  rw [hr] at h
  exact h

/-- Sufficient per-field conditions for a stored row to pass the checks. -/
theorem passesChecks_row (idv t : ℕ) (c i : String) (q : ℤ) (p : PyNum)
    (hc : (sanitize_string (.vStr c) .customer_name).2 = [])
    (hi : (sanitize_string (.vStr i) .item_name).2 = [])
    (hq : (validate_quantity (.vInt q)).2 = [])
    (hp : (validate_total_price (.vFloat p)).2 = []) :
    passesChecks ⟨idv, c, i, q, p, t⟩ = true := by
  unfold passesChecks
  simp only at hc hi hq hp ⊢
  simp [hc, hi, hq, hp]

/-- C1 (counterexample): the bootstrapped store is reachable, contains the
fifth seed row, and that row fails the Validator's item-name pattern check:
the hyphen in "USB-C Cable" is outside the allowed character class, so not
every persisted row passes all field constraints. -/
theorem c1_counterexample :
    Reachable initStore ∧
    (⟨5, "Mehedi HasaN", "USB-C Cable", 3, .finite (29.97 : ℚ), 0⟩ : Order) ∈ initStore.rows ∧
    passesChecks ⟨5, "Mehedi HasaN", "USB-C Cable", 3, .finite (29.97 : ℚ), 0⟩ = false ∧
    (sanitize_string (.vStr "USB-C Cable") .item_name).2 =
      ["Item name can only have letters, numbers, spaces, and quotes"] := by
  refine ⟨Reachable.init, ?_, ?_, ?_⟩
  · simp [initStore]
  · rfl
  · rfl

/-- C1 (amended): every row of every reachable store state either passes
the Validator's field checks (in the Validator's own semantics, under which
a NaN total price passes the range test) or is the fifth bootstrap seed
row, whose item_name "USB-C Cable" fails the item-name pattern; in
particular every row inserted via the validated create path passes. -/
theorem c1_rows_pass_validator_amended (s : Store) (h : Reachable s) :
    ∀ o ∈ s.rows, passesChecks o = true ∨
      o = ⟨5, "Mehedi HasaN", "USB-C Cable", 3, .finite (29.97 : ℚ), 0⟩ := by
  induction h with
  | init =>
    intro o ho
    fin_cases ho
    · left
      exact passesChecks_row _ _ _ _ _ _ rfl rfl rfl
        (by rw [price_check_cents (1299.99 : ℚ) 129999 (by norm_num) (by norm_num) (by norm_num)])
    · left
      exact passesChecks_row _ _ _ _ _ _ rfl rfl rfl
        (by rw [price_check_cents (49.98 : ℚ) 4998 (by norm_num) (by norm_num) (by norm_num)])
    · left
      exact passesChecks_row _ _ _ _ _ _ rfl rfl rfl
        (by rw [price_check_cents (59.99 : ℚ) 5999 (by norm_num) (by norm_num) (by norm_num)])
    · left
      exact passesChecks_row _ _ _ _ _ _ rfl rfl rfl
        (by rw [price_check_cents (599.98 : ℚ) 59998 (by norm_num) (by norm_num) (by norm_num)])
    · right; rfl
  | create s data connOk now hr ih =>
    intro o ho
    by_cases ht : pyTruthy data = true
    · rcases hv : validate_order_data data with ⟨od, errs⟩
      cases errs with
      | cons e es =>
        have hs2 : (create_order data connOk s now).2 = s := by
          unfold create_order
          rw [ht, hv]
          simp
        rw [hs2] at ho
        exact ih o ho
      | nil =>
        cases od with
        | none =>
          have hs2 : (create_order data connOk s now).2 = s := by
            unfold create_order
            rw [ht, hv]
            simp
          rw [hs2] at ho
          exact ih o ho
        | some d =>
          by_cases hc : connOk = true
          · rcases hins : insertOrder s d now with _ | r
            · have hs2 : (create_order data connOk s now).2 = s := by
                unfold create_order
                rw [ht, hv, hc]
                simp [hins]
              rw [hs2] at ho
              exact ih o ho
            · have hr := insertOrder_some s d now r hins
              have hs2 : (create_order data connOk s now).2 =
                  ⟨s.rows ++
                    [⟨s.nextId, d.customer_name, d.item_name, d.quantity, d.total_price, now⟩],
                    s.nextId + 1⟩ := by
                unfold create_order
                rw [ht, hv, hc]
                simp [hins, hr]
              rw [hs2] at ho
              rcases List.mem_append.mp ho with h1 | h2
              · exact ih o h1
              · left
                rw [List.mem_singleton] at h2
                subst h2
                exact passesChecks_of_validated data d _ _ hv
          · have hcf : connOk = false := by
              cases connOk with
              | false => rfl
              | true => exact absurd rfl hc
            have hs2 : (create_order data connOk s now).2 = s := by
              unfold create_order
              rw [ht, hv, hcf]
              simp
            rw [hs2] at ho
            exact ih o ho
    · have htf : pyTruthy data = false := by
        cases hpt : pyTruthy data with
        | false => rfl
        | true => exact absurd hpt ht
      have hs2 : (create_order data connOk s now).2 = s := by
        unfold create_order
        rw [htf]
        simp
      rw [hs2] at ho
      exact ih o ho

/-- A string field value that is nonempty after trimming, within the
length bound and inside the character class is accepted as its trimmed
form with no errors. -/
theorem sanitize_string_ok (f : StrField) (s : String)
    (h1 : pyStrip s ≠ "") (h2 : (pyStrip s).length ≤ f.maxLength)
    (h3 : (pyStrip s).data.all f.charOk = true) :
    sanitize_string (.vStr s) f = (some (pyStrip s), []) := by
  have hm : matchesClass f (pyStrip s) = true := by
    unfold matchesClass
    cases hd : (pyStrip s).data with
    | nil => exact absurd (congrArg String.mk hd) h1
    | cons a t =>
      rw [hd] at h3
      simp [h3]
  unfold sanitize_string
  simp only
  rw [if_neg h1, if_neg (not_lt.2 h2), if_pos hm]
  simp

/-- A quantity value converting to an in-range integer is accepted. -/
theorem validate_quantity_ok (v : Value) (q : ℤ)
    (hv : pyInt v = some q) (h1 : 1 ≤ q) (h2 : q ≤ 1000) :
    validate_quantity v = (some q, []) := by
  unfold validate_quantity
  rw [hv]
  simp only
  rw [if_neg (not_or.mpr ⟨not_lt.2 h1, not_lt.2 h2⟩)]

/-- A total price converting to a finite value whose rounding is in range
is accepted as the rounded value. -/
theorem validate_total_price_ok (v : Value) (x : ℚ)
    (hv : pyFloat v = some (.finite x))
    (h1 : 1 / 100 ≤ roundQ2 x) (h2 : roundQ2 x ≤ 1000000) :
    validate_total_price v = (some (.finite (roundQ2 x)), []) := by
  have l1 : PyNum.ltB (.finite (roundQ2 x)) (.finite (1 / 100)) = false := by
    simp only [PyNum.ltB]
    exact decide_eq_false (not_lt.2 h1)
  have l2 : PyNum.ltB (.finite 1000000) (.finite (roundQ2 x)) = false := by
    simp only [PyNum.ltB]
    exact decide_eq_false (not_lt.2 h2)
  unfold validate_total_price
  rw [hv]
  show (if (PyNum.ltB (PyNum.finite (roundQ2 x)) (PyNum.finite (1 / 100)) ||
        PyNum.ltB (PyNum.finite 1000000) (PyNum.finite (roundQ2 x))) = true
      then ((none : Option PyNum), ["Total price must be between 0.01 and 1,000,000.00"])
      else (some (PyNum.finite (roundQ2 x)), ([] : List String))) =
    (some (PyNum.finite (roundQ2 x)), ([] : List String))
  rw [l1, l2]
  simp

/-- The four per-field error lists are always concatenated in field order
(no cross-field short-circuit) whenever the body is an object with all
required keys. -/
theorem validate_errors_concat (kvs : List (String × Value))
    (hm : (requiredFields.filter fun f => !hasKey kvs f) = []) :
    (validate_order_data (.vDict kvs)).2 =
      (sanitize_string (dictGet kvs "customer_name") .customer_name).2 ++
      (sanitize_string (dictGet kvs "item_name") .item_name).2 ++
      (validate_quantity (dictGet kvs "quantity")).2 ++
      (validate_total_price (dictGet kvs "total_price")).2 := by
  unfold validate_order_data
  simp only
  rw [if_neg (not_ne_iff.mpr hm)]
  by_cases he :
      (sanitize_string (dictGet kvs "customer_name") .customer_name).2 ++
        (sanitize_string (dictGet kvs "item_name") .item_name).2 ++
        (validate_quantity (dictGet kvs "quantity")).2 ++
        (validate_total_price (dictGet kvs "total_price")).2 ≠ []
  · rw [if_pos he]
  · rw [if_neg he]
    rw [not_ne_iff] at he
    rw [he]
    rcases (sanitize_string (dictGet kvs "customer_name") StrField.customer_name).1 with _ | c <;>
      rcases (sanitize_string (dictGet kvs "item_name") StrField.item_name).1 with _ | i <;>
      rcases (validate_quantity (dictGet kvs "quantity")).1 with _ | q <;>
      rcases (validate_total_price (dictGet kvs "total_price")).1 with _ | p <;>
      rfl

/-- Fully valid inputs are accepted: all four keys present, both strings
typed and in bounds after trimming, the quantity converting to an in-range
integer, the total price converting with an in-range rounded value; the
result is zero errors and exactly the trimmed/converted record. -/
theorem validate_order_data_ok (kvs : List (String × Value)) (c i : String) (q : ℤ) (x : ℚ)
    (hkc : dictGet kvs "customer_name" = .vStr c)
    (hki : dictGet kvs "item_name" = .vStr i)
    (hvq : pyInt (dictGet kvs "quantity") = some q)
    (hvx : pyFloat (dictGet kvs "total_price") = some (.finite x))
    (hk1 : hasKey kvs "customer_name" = true) (hk2 : hasKey kvs "item_name" = true)
    (hk3 : hasKey kvs "quantity" = true) (hk4 : hasKey kvs "total_price" = true)
    (hc1 : pyStrip c ≠ "") (hc2 : (pyStrip c).length ≤ 100)
    (hc3 : (pyStrip c).data.all customerChar = true)
    (hi1 : pyStrip i ≠ "") (hi2 : (pyStrip i).length ≤ 200)
    (hi3 : (pyStrip i).data.all itemChar = true)
    (hq1 : 1 ≤ q) (hq2 : q ≤ 1000)
    (hx1 : 1 / 100 ≤ roundQ2 x) (hx2 : roundQ2 x ≤ 1000000) :
    validate_order_data (.vDict kvs) =
      (some ⟨pyStrip c, pyStrip i, q, .finite (roundQ2 x)⟩, []) := by
  have hsc : sanitize_string (dictGet kvs "customer_name") .customer_name =
      (some (pyStrip c), []) := by
    rw [hkc]
    exact sanitize_string_ok .customer_name c hc1 hc2 hc3
  have hsi : sanitize_string (dictGet kvs "item_name") .item_name = (some (pyStrip i), []) := by
    rw [hki]
    exact sanitize_string_ok .item_name i hi1 hi2 hi3
  have hq' : validate_quantity (dictGet kvs "quantity") = (some q, []) :=
    validate_quantity_ok _ q hvq hq1 hq2
  have hx' : validate_total_price (dictGet kvs "total_price") =
      (some (.finite (roundQ2 x)), []) :=
    validate_total_price_ok _ x hvx hx1 hx2
  have hmiss : (requiredFields.filter fun f => !hasKey kvs f) = [] := by
    simp [requiredFields, hk1, hk2, hk3, hk4]
  unfold validate_order_data
  simp only
  rw [if_neg (not_ne_iff.mpr hmiss)]
  rw [hsc, hsi, hq', hx']
  simp

/-- C5: for every input object whose four required fields are present and
valid — strings in length and pattern bounds after trimming, quantity
converting to an integer in [1,1000], total price converting with its
2-decimal rounding in [0.01, 1000000] — validation returns an empty error
list and the record of the trimmed and converted values; moreover for any
body with all keys present the four per-field error lists are all
collected in field order, with no cross-field short-circuit. -/
theorem c5_validate_accepts_valid (kvs : List (String × Value)) (c i : String) (q : ℤ) (x : ℚ)
    (hkc : dictGet kvs "customer_name" = .vStr c)
    (hki : dictGet kvs "item_name" = .vStr i)
    (hvq : pyInt (dictGet kvs "quantity") = some q)
    (hvx : pyFloat (dictGet kvs "total_price") = some (.finite x))
    (hk1 : hasKey kvs "customer_name" = true) (hk2 : hasKey kvs "item_name" = true)
    (hk3 : hasKey kvs "quantity" = true) (hk4 : hasKey kvs "total_price" = true)
    (hc1 : pyStrip c ≠ "") (hc2 : (pyStrip c).length ≤ 100)
    (hc3 : (pyStrip c).data.all customerChar = true)
    (hi1 : pyStrip i ≠ "") (hi2 : (pyStrip i).length ≤ 200)
    (hi3 : (pyStrip i).data.all itemChar = true)
    (hq1 : 1 ≤ q) (hq2 : q ≤ 1000)
    (hx1 : 1 / 100 ≤ roundQ2 x) (hx2 : roundQ2 x ≤ 1000000) :
    validate_order_data (.vDict kvs) =
      (some ⟨pyStrip c, pyStrip i, q, .finite (roundQ2 x)⟩, []) ∧
    (∀ kvs₂ : List (String × Value),
      (requiredFields.filter fun f => !hasKey kvs₂ f) = [] →
      (validate_order_data (.vDict kvs₂)).2 =
        (sanitize_string (dictGet kvs₂ "customer_name") .customer_name).2 ++
        (sanitize_string (dictGet kvs₂ "item_name") .item_name).2 ++
        (validate_quantity (dictGet kvs₂ "quantity")).2 ++
        (validate_total_price (dictGet kvs₂ "total_price")).2) :=
  ⟨validate_order_data_ok kvs c i q x hkc hki hvq hvx hk1 hk2 hk3 hk4
      hc1 hc2 hc3 hi1 hi2 hi3 hq1 hq2 hx1 hx2,
    fun kvs₂ hm => validate_errors_concat kvs₂ hm⟩

/-- C5 (witness): a concrete valid body; the name is trimmed and the price
recorded rounded. -/
theorem c5_witness :
    validate_order_data (.vDict [("customer_name", .vStr "  Bob "),
      ("item_name", .vStr "Widget 5"), ("quantity", .vInt 5), ("total_price", .vInt 10)]) =
      (some ⟨"Bob", "Widget 5", 5, .finite 10⟩, []) := by
  have hr : roundQ2 ((10 : ℤ) : ℚ) = ((10 : ℤ) : ℚ) := by
    have h10 : ((10 : ℤ) : ℚ) = ((1000 : ℤ) : ℚ) / 100 := by norm_num
    rw [h10, roundQ2_intCast_div]
  have h := (c5_validate_accepts_valid
    [("customer_name", .vStr "  Bob "), ("item_name", .vStr "Widget 5"),
      ("quantity", .vInt 5), ("total_price", .vInt 10)]
    "  Bob " "Widget 5" 5 ((10 : ℤ) : ℚ)
    rfl rfl rfl rfl rfl rfl rfl rfl
    (by decide) (by decide) (by decide)
    (by decide) (by decide) (by decide)
    (by norm_num) (by norm_num)
    (by rw [hr]; norm_num) (by rw [hr]; norm_num)).1
  rw [hr] at h
  exact h

/-- C7 (counterexample): an empty JSON object body `\x7b\x7d` is falsy in
Python, so `create_order` answers it with 400 and the single-message
`error` key — not the `errors` list the claim requires for every body that
is missing, malformed or failing validation. -/
theorem c7_counterexample :
    create_order (.vDict []) true initStore 0 =
      (.ok ⟨400, .jsonError "No provided data"⟩, initStore) ∧
    hasErrorsKey (.jsonError "No provided data") = false ∧
    hasErrorKey (.jsonError "No provided data") = true :=
  ⟨rfl, rfl, rfl⟩

/-- C7 (amended): bodies that reach validation and fail it get 400 with the
`errors` list; falsy bodies (absent, or empty object/array/string/zero) get
400 with the single-message `error` key "No provided data"; and no response
body ever carries both the `error` and the `errors` key. -/
theorem c7_error_shapes (data : Value) (connOk : Bool) (s : Store) (now : ℕ) :
    (pyTruthy data = false →
      create_order data connOk s now = (.ok ⟨400, .jsonError "No provided data"⟩, s)) ∧
    (∀ e es, pyTruthy data = true → (validate_order_data data).2 = e :: es →
      create_order data connOk s now = (.ok ⟨400, .jsonErrors (e :: es)⟩, s)) ∧
    (∀ b : RespBody, ¬(hasErrorKey b = true ∧ hasErrorsKey b = true)) := by
  refine ⟨fun ht => ?_, fun e es ht hv => ?_, fun b => ?_⟩
  · unfold create_order
    rw [ht]
    simp
  · unfold create_order
    rw [ht]
    rcases hveq : validate_order_data data with ⟨od, errs⟩
    rw [hveq] at hv
    simp only at hv
    subst hv
    simp
  · cases b <;> simp [hasErrorKey, hasErrorsKey]

/-- C7 (witness): a truthy body failing validation gets the `errors` list. -/
theorem c7_witness :
    create_order (.vDict [("customer_name", .vInt 1)]) true initStore 0 =
      (.ok ⟨400, .jsonErrors ["Missing required fields: item_name, quantity, total_price"]⟩,
        initStore) :=
  (c7_error_shapes (.vDict [("customer_name", .vInt 1)]) true initStore 0).2.1
    "Missing required fields: item_name, quantity, total_price" [] rfl rfl

/-- C9: a non-integral float quantity is not rejected as a wrong type:
Python `int()` truncates it toward zero, and with all other fields valid
the validator reports no quantity error and records the truncation. -/
theorem c9_quantity_truncated (x : ℚ) (h1 : 1 ≤ ratTrunc x) (h2 : ratTrunc x ≤ 1000) :
    pyInt (.vFloat (.finite x)) = some (ratTrunc x) ∧
    validate_order_data (.vDict [("customer_name", .vStr "Bob"),
      ("item_name", .vStr "Widget"), ("quantity", .vFloat (.finite x)),
      ("total_price", .vInt 10)]) =
      (some ⟨"Bob", "Widget", ratTrunc x, .finite (roundQ2 ((10 : ℤ) : ℚ))⟩, []) := by
  refine ⟨rfl, ?_⟩
  have h := validate_order_data_ok
    [("customer_name", .vStr "Bob"), ("item_name", .vStr "Widget"),
      ("quantity", .vFloat (.finite x)), ("total_price", .vInt 10)]
    "Bob" "Widget" (ratTrunc x) ((10 : ℤ) : ℚ)
    rfl rfl rfl rfl rfl rfl rfl rfl
    (by decide) (by decide) (by decide)
    (by decide) (by decide) (by decide)
    h1 h2
    (by
      have h10 : ((10 : ℤ) : ℚ) = ((1000 : ℤ) : ℚ) / 100 := by norm_num
      rw [h10, roundQ2_intCast_div]
      norm_num)
    (by
      have h10 : ((10 : ℤ) : ℚ) = ((1000 : ℤ) : ℚ) / 100 := by norm_num
      rw [h10, roundQ2_intCast_div]
      norm_num)
  exact h

/-- C9 (witness): quantity 3.7 is accepted and stored as 3. -/
theorem c9_witness :
    validate_order_data (.vDict [("customer_name", .vStr "Bob"),
      ("item_name", .vStr "Widget"), ("quantity", .vFloat (.finite (37 / 10))),
      ("total_price", .vInt 10)]) =
      (some ⟨"Bob", "Widget", 3, .finite 10⟩, []) := by
  have htr : ratTrunc (37 / 10 : ℚ) = 3 := by
    unfold ratTrunc
    rw [if_pos (by norm_num)]
    rw [Int.floor_eq_iff]
    norm_num
  have hr : roundQ2 ((10 : ℤ) : ℚ) = ((10 : ℤ) : ℚ) := by
    have h10 : ((10 : ℤ) : ℚ) = ((1000 : ℤ) : ℚ) / 100 := by norm_num
    rw [h10, roundQ2_intCast_div]
  have h := (c9_quantity_truncated (37 / 10)
    (by rw [htr]; norm_num) (by rw [htr]; norm_num)).2
  rw [htr, hr] at h
  exact h

/-- C2 (counterexample): with three rows sharing one `created_at`, the
insertion order [1,2,3] satisfies everything `ORDER BY created_at DESC`
guarantees, yet it is neither sorted by id descending nor the reverse of
the insertion order: the query has no id tiebreaker, so the claimed
tie-breaking and reverse-creation order are not implied by the code. -/
theorem c2_counterexample :
    ordersQuery ⟨[tieRow 1, tieRow 2, tieRow 3], 4⟩ [tieRow 1, tieRow 2, tieRow 3] ∧
    ¬ List.Sorted (fun a b : Order => b.id ≤ a.id) [tieRow 1, tieRow 2, tieRow 3] ∧
    [tieRow 1, tieRow 2, tieRow 3] ≠ [tieRow 3, tieRow 2, tieRow 1] := by
  refine ⟨⟨?_, ?_⟩, ?_, ?_⟩
  · decide
  · decide
  · decide
  · decide

/-- C2 (amended): the query sorts only by `created_at` descending; when all
stored timestamps are distinct, that alone pins the result down uniquely
(the rows in descending timestamp order), but on timestamp ties no order —
in particular not id-descending — is guaranteed. -/
theorem c2_listAll_sorted_amended (s : Store) (out : List Order)
    (hd : s.rows.Pairwise (fun a b => a.created_at ≠ b.created_at))
    (h : ordersQuery s out) :
    out = List.insertionSort createdDesc s.rows := by
  obtain ⟨hperm, hsort⟩ := h
  have hperm₂ : (List.insertionSort createdDesc s.rows).Perm s.rows :=
    List.perm_insertionSort createdDesc s.rows
  have hsort₂ : List.Sorted createdDesc (List.insertionSort createdDesc s.rows) :=
    List.sorted_insertionSort createdDesc s.rows
  have hd₁ : out.Pairwise (fun a b => a.created_at ≠ b.created_at) :=
    (hperm.pairwise_iff (fun hxy => Ne.symm hxy)).mpr hd
  have hd₂ : (List.insertionSort createdDesc s.rows).Pairwise
      (fun a b => a.created_at ≠ b.created_at) :=
    (hperm₂.pairwise_iff (fun hxy => Ne.symm hxy)).mpr hd
  have hs1 : List.Sorted createdDescStrict out :=
    (List.Pairwise.and hsort hd₁).imp
      (fun hab => Or.inl (lt_of_le_of_ne hab.1 hab.2.symm))
  have hs2 : List.Sorted createdDescStrict (List.insertionSort createdDesc s.rows) :=
    (List.Pairwise.and hsort₂ hd₂).imp
      (fun hab => Or.inl (lt_of_le_of_ne hab.1 hab.2.symm))
  exact List.eq_of_perm_of_sorted (hperm.trans hperm₂.symm) hs1 hs2

/-- C2 (witness): three rows with strictly distinct timestamps; the amended
theorem pins the query result down: newest first. -/
theorem c2_witness :
    ordersQuery ⟨[⟨1, "Ann", "Widget", 1, .finite 10, 10⟩,
        ⟨2, "Ben", "Widget", 1, .finite 10, 20⟩,
        ⟨3, "Cam", "Widget", 1, .finite 10, 30⟩], 4⟩
      [⟨3, "Cam", "Widget", 1, .finite 10, 30⟩,
        ⟨2, "Ben", "Widget", 1, .finite 10, 20⟩,
        ⟨1, "Ann", "Widget", 1, .finite 10, 10⟩] ∧
    [(⟨3, "Cam", "Widget", 1, .finite 10, 30⟩ : Order),
        ⟨2, "Ben", "Widget", 1, .finite 10, 20⟩,
        ⟨1, "Ann", "Widget", 1, .finite 10, 10⟩] =
      List.insertionSort createdDesc
        [⟨1, "Ann", "Widget", 1, .finite 10, 10⟩,
          ⟨2, "Ben", "Widget", 1, .finite 10, 20⟩,
          ⟨3, "Cam", "Widget", 1, .finite 10, 30⟩] :=
  ⟨by exact ⟨by decide, by decide⟩,
    c2_listAll_sorted_amended
      ⟨[⟨1, "Ann", "Widget", 1, .finite 10, 10⟩,
        ⟨2, "Ben", "Widget", 1, .finite 10, 20⟩,
        ⟨3, "Cam", "Widget", 1, .finite 10, 30⟩], 4⟩
      [⟨3, "Cam", "Widget", 1, .finite 10, 30⟩,
        ⟨2, "Ben", "Widget", 1, .finite 10, 20⟩,
        ⟨1, "Ann", "Widget", 1, .finite 10, 10⟩]
      (by decide) ⟨by decide, by decide⟩⟩

/-- C3: on the malformed id "abc" the try block computes the documented 400
malformed-id response, but the handler's finally block raises
UnboundLocalError (the local `conn` was never assigned on that path), so
the client actually receives a 500, not the 400 the claim states; the
well-formed but absent id "999999" on an empty store does yield the
distinct NotFound 404. -/
theorem c3_malformed_id_clobbered :
    get_order_try "abc" true initStore =
      ⟨⟨400, .jsonError "Invalid order ID format"⟩, false⟩ ∧
    get_order "abc" true initStore = .exn .unboundLocalError ∧
    clientStatus (get_order "abc" true initStore) = 500 ∧
    get_order "999999" true ⟨[], 1⟩ = .ok ⟨404, .jsonError "Order not found"⟩ :=
  ⟨rfl, rfl, rfl, rfl⟩

/-- C4: the cleanup of `get_order` raises on every path on which `conn` was
never bound — the malformed-id early return and a failing
`sqlite3.connect` both end in an escaped UnboundLocalError instead of a
clean release — while `create_order`, which initialises `conn = None` and
guards its close, returns normally on its connection-less path. -/
theorem c4_cleanup_raises :
    get_order "abc" true initStore = .exn .unboundLocalError ∧
    get_order "12" false initStore = .exn .unboundLocalError ∧
    (create_order (.vDict []) false initStore 0).1 =
      .ok ⟨400, .jsonError "No provided data"⟩ :=
  ⟨rfl, rfl, rfl⟩

/-- C8 (counterexample): a "nan" total price does validate with no errors
and records NaN, but such an order is NOT then accepted and persisted:
SQLite binds the NaN double as SQL NULL, the REAL NOT NULL constraint on
total_price rejects the INSERT, and the handler answers 500 with the store
unchanged. -/
theorem c8_counterexample :
    validate_order_data (.vDict [("customer_name", .vStr "Bob"), ("item_name", .vStr "Widget"),
      ("quantity", .vInt 2), ("total_price", .vStr "nan")]) =
      (some ⟨"Bob", "Widget", 2, .nan⟩, []) ∧
    insertOrder initStore ⟨"Bob", "Widget", 2, .nan⟩ 7 = none ∧
    create_order (.vDict [("customer_name", .vStr "Bob"), ("item_name", .vStr "Widget"),
      ("quantity", .vInt 2), ("total_price", .vStr "nan")]) true initStore 7 =
      (.ok ⟨500, .jsonError "Database error occurred"⟩, initStore) :=
  ⟨rfl, rfl, rfl⟩

/-- C8 (amended): for total_price "nan" (or a float NaN) with all other
fields valid, validate reports no total_price error and records NaN —
both range comparisons are false for NaN — but the subsequent INSERT binds
the NaN as NULL, violating the NOT NULL constraint, so `cursor.execute`
raises, create answers 500 "Database error occurred", and no NaN order is
ever persisted. -/
theorem c8_nan_price_amended (s : Store) (now : ℕ) :
    PyNum.ltB .nan (.finite (1 / 100)) = false ∧
    PyNum.ltB (.finite 1000000) .nan = false ∧
    validate_total_price (.vStr "nan") = (some .nan, []) ∧
    validate_total_price (.vFloat .nan) = (some .nan, []) ∧
    validate_order_data (.vDict [("customer_name", .vStr "Bob"), ("item_name", .vStr "Widget"),
      ("quantity", .vInt 2), ("total_price", .vStr "nan")]) =
      (some ⟨"Bob", "Widget", 2, .nan⟩, []) ∧
    (∀ d : OrderData, d.total_price = .nan → insertOrder s d now = none) ∧
    create_order (.vDict [("customer_name", .vStr "Bob"), ("item_name", .vStr "Widget"),
      ("quantity", .vInt 2), ("total_price", .vStr "nan")]) true s now =
      (.ok ⟨500, .jsonError "Database error occurred"⟩, s) :=
  ⟨rfl, rfl, rfl, rfl, rfl, fun d hd => insertOrder_nan s d now hd, rfl⟩

/-- C8 (witness): the amended statement instantiated at the seeded store
and concrete NaN records. -/
theorem c8_witness :
    insertOrder initStore ⟨"Ann", "Cable", 1, .nan⟩ 9 = none ∧
    create_order (.vDict [("customer_name", .vStr "Bob"), ("item_name", .vStr "Widget"),
      ("quantity", .vInt 2), ("total_price", .vStr "nan")]) true initStore 7 =
      (.ok ⟨500, .jsonError "Database error occurred"⟩, initStore) :=
  ⟨(c8_nan_price_amended initStore 9).2.2.2.2.2.1 ⟨"Ann", "Cable", 1, .nan⟩ rfl,
    (c8_nan_price_amended initStore 7).2.2.2.2.2.2⟩

/-- A decimal digit character is an ASCII digit. -/
theorem digitChar_isDigit (d : ℕ) (hd : d < 10) : (digitChar d).isDigit = true := by
  interval_cases d <;> rfl

/-- The numeric value of a decimal digit character. -/
theorem digitChar_toNat (d : ℕ) (hd : d < 10) : (digitChar d).toNat - 48 = d := by
  interval_cases d <;> rfl

/-- For positive `n`, `natDigits n` is a nonempty ASCII-digit string whose
parsed value is `n` again. -/
theorem natDigits_spec (n : ℕ) : 0 < n →
    natDigits n ≠ [] ∧ (natDigits n).all Char.isDigit = true ∧ digitsVal (natDigits n) = n := by
  induction n using Nat.strong_induction_on with
  | _ n ih =>
    intro hn
    obtain ⟨m, rfl⟩ : ∃ m, n = m + 1 := ⟨n - 1, (Nat.succ_pred_eq_of_pos hn).symm⟩
    rw [natDigits]
    have hmod : (m + 1) % 10 < 10 := Nat.mod_lt _ (by norm_num)
    have hdv : digitsVal (natDigits ((m + 1) / 10) ++ [digitChar ((m + 1) % 10)]) =
        10 * digitsVal (natDigits ((m + 1) / 10)) + (m + 1) % 10 := by
      unfold digitsVal
      rw [List.foldl_append]
      simp [digitChar_toNat _ hmod]
    by_cases h0 : (m + 1) / 10 = 0
    · refine ⟨by simp, ?_, ?_⟩
      · rw [h0, List.all_append]
        simp [digitChar_isDigit _ hmod, natDigits]
      · rw [hdv, h0]
        have hdm := Nat.div_add_mod (m + 1) 10
        rw [h0] at hdm
        simp only [natDigits]
        simpa [digitsVal] using hdm
    · have hlt : (m + 1) / 10 < m + 1 := Nat.div_lt_self (Nat.succ_pos m) (by norm_num)
      obtain ⟨hne', hall', hval'⟩ := ih _ hlt (Nat.pos_of_ne_zero h0)
      refine ⟨by simp, ?_, ?_⟩
      · rw [List.all_append]
        simp [hall', digitChar_isDigit _ hmod]
      · rw [hdv, hval']
        have hdm := Nat.div_add_mod (m + 1) 10
        omega

/-- SQLite numeric affinity maps the decimal rendering of `n` back to `n`. -/
theorem sqliteTextAffinity_natToDec (n : ℕ) : sqliteTextAffinity (natToDec n) = some n := by
  rcases Nat.eq_zero_or_pos n with rfl | hn
  · rfl
  · obtain ⟨hne, hall, hval⟩ := natDigits_spec n hn
    unfold natToDec
    rw [if_neg (Nat.pos_iff_ne_zero.mp hn)]
    unfold sqliteTextAffinity
    rw [string_data_mk]
    unfold allDigits
    have hie : (natDigits n).isEmpty = false := by
      cases hd : natDigits n with
      | nil => exact absurd hd hne
      | cons a t => rfl
    rw [hall, hie]
    simp [hval]

/-- Python str.isdigit accepts the decimal rendering of any id. -/
theorem pyIsdigit_natToDec (n : ℕ) : pyIsdigit (natToDec n) = true := by
  rcases Nat.eq_zero_or_pos n with rfl | hn
  · rfl
  · obtain ⟨hne, hall, _⟩ := natDigits_spec n hn
    unfold natToDec
    rw [if_neg (Nat.pos_iff_ne_zero.mp hn)]
    unfold pyIsdigit
    rw [string_data_mk]
    have h2 : (natDigits n).all pyDigitChar = true := by
      rw [List.all_eq_true] at hall ⊢
      intro c hc
      unfold pyDigitChar
      rw [hall c hc]
      rfl
    have hie : (natDigits n).isEmpty = false := by
      cases hd : natDigits n with
      | nil => exact absurd hd hne
      | cons a t => rfl
    rw [h2, hie]
    rfl

/-- C6: when creating a validated record succeeds with id `oid`, fetching
that id (in its decimal rendering, as it travels through JSON) yields an
order equal to the record in customer_name, item_name, quantity and
total_price, differing only in the server-assigned id and created_at. -/
theorem c6_create_get_roundtrip (s : Store) (d : OrderData) (now : ℕ) (oid : ℕ) (s' : Store)
    (hid : ∀ o ∈ s.rows, o.id < s.nextId)
    (_hvd : ∃ raw, validate_order_data raw = (some d, []))
    (hins : insertOrder s d now = some (oid, s')) :
    get_order (natToDec oid) true s' =
      .ok ⟨200, .jsonOrder
        ⟨s.nextId, d.customer_name, d.item_name, d.quantity, d.total_price, now⟩⟩ := by
  clear _hvd
  have hr := insertOrder_some s d now (oid, s') hins
  have hoid : oid = s.nextId := congrArg Prod.fst hr
  have hs' : s' =
      ⟨s.rows ++ [⟨s.nextId, d.customer_name, d.item_name, d.quantity, d.total_price, now⟩],
        s.nextId + 1⟩ := congrArg Prod.snd hr
  subst hoid
  subst hs'
  have hnone : s.rows.find? (fun o : Order => o.id == s.nextId) = none := by
    rw [List.find?_eq_none]
    intro o ho
    simp only [beq_iff_eq]
    exact Nat.ne_of_lt (hid o ho)
  simp [get_order, get_order_try, applyFinally, lookupById,
    pyIsdigit_natToDec, sqliteTextAffinity_natToDec, List.find?_append, hnone, List.find?]

/-- C6 (witness): creating a validated record on the seeded store succeeds
with id 6, and fetching "6" returns exactly that record's four fields. -/
theorem c6_witness :
    insertOrder initStore ⟨"Bob", "Widget", 2, .finite 10⟩ 7 =
      some (6, ⟨initStore.rows ++ [⟨6, "Bob", "Widget", 2, .finite 10, 7⟩], 7⟩) ∧
    get_order (natToDec 6) true
      ⟨initStore.rows ++ [⟨6, "Bob", "Widget", 2, .finite 10, 7⟩], 7⟩ =
      .ok ⟨200, .jsonOrder ⟨6, "Bob", "Widget", 2, .finite 10, 7⟩⟩ := by
  have hr : roundQ2 ((10 : ℤ) : ℚ) = ((10 : ℤ) : ℚ) := by
    have h10 : ((10 : ℤ) : ℚ) = ((1000 : ℤ) : ℚ) / 100 := by norm_num
    rw [h10, roundQ2_intCast_div]
  have hvd : validate_order_data (.vDict [("customer_name", .vStr "Bob"),
      ("item_name", .vStr "Widget"), ("quantity", .vInt 2), ("total_price", .vInt 10)]) =
      (some ⟨"Bob", "Widget", 2, .finite 10⟩, []) := by
    have h := validate_order_data_ok
      [("customer_name", .vStr "Bob"), ("item_name", .vStr "Widget"),
        ("quantity", .vInt 2), ("total_price", .vInt 10)]
      "Bob" "Widget" 2 ((10 : ℤ) : ℚ)
      rfl rfl rfl rfl rfl rfl rfl rfl
      (by decide) (by decide) (by decide)
      (by decide) (by decide) (by decide)
      (by norm_num) (by norm_num)
      (by rw [hr]; norm_num) (by rw [hr]; norm_num)
    rw [hr] at h
    exact h
  refine ⟨rfl, ?_⟩
  exact c6_create_get_roundtrip initStore ⟨"Bob", "Widget", 2, .finite 10⟩ 7 6
    ⟨initStore.rows ++ [(⟨6, "Bob", "Widget", 2, .finite 10, 7⟩ : Order)], 7⟩
    (by intro o ho; fin_cases ho <;> decide)
    ⟨_, hvd⟩
    (by rfl)

/-- C10: Python str.isdigit accepts non-ASCII Unicode digit characters, so
for ids like "²" or "٥" the malformed-id branch is not taken; the lookup
then matches no row (SQLite cannot convert such text to an integer) and the
handler returns NotFound 404 rather than the malformed-id 400. -/
theorem c10_unicode_digit_ids :
    pyIsdigit "²" = true ∧
    get_order "²" true initStore = .ok ⟨404, .jsonError "Order not found"⟩ ∧
    pyIsdigit "٥" = true ∧
    get_order "٥" true initStore = .ok ⟨404, .jsonError "Order not found"⟩ ∧
    pyIsdigit "abc" = false :=
  ⟨rfl, rfl, rfl, rfl, rfl⟩

/-- C1 (witness): the amended invariant instantiated at the reachable
bootstrapped store and its first seed row. -/
theorem c1_witness :
    passesChecks ⟨1, "Kamrul Islam", "MSI Gaming Laptop", 1, .finite (1299.99 : ℚ), 0⟩ = true ∨
    (⟨1, "Kamrul Islam", "MSI Gaming Laptop", 1, .finite (1299.99 : ℚ), 0⟩ : Order) =
      ⟨5, "Mehedi HasaN", "USB-C Cable", 3, .finite (29.97 : ℚ), 0⟩ :=
  c1_rows_pass_validator_amended initStore Reachable.init _ (by simp [initStore])

end OrderApp
